import Mathlib

/-!
Shallow embedding of the Vulkan queue runner
(`ext/native/thin3d/VulkanQueueRunner.{h,cpp}`): the step records, the
peephole optimizer passes run by `RunSteps`, the render-pass cache, the
layout-transition helpers, the render-pass executor's layout updates, the
readback staging buffer, and the readback format-conversion dispatch.

Pointers to `VKRFramebuffer` objects are modelled as `Option Nat`
(`none` = `nullptr`, i.e. the backbuffer).  The C++ `VKRStep` stores its
per-kind payload in an untagged union; the model gives every union member
its own field, so a read of `render.*` on a non-render step reads the
model field rather than reinterpreted bytes (the rewrite passes do perform
such reads; no verified property depends on the aliased value).
-/

namespace VulkanQR

/-- The subset of `VkImageLayout` values that appear in VulkanQueueRunner.cpp. -/
inductive VkImageLayout where
  | UNDEFINED
  | GENERAL
  | COLOR_ATTACHMENT_OPTIMAL
  | DEPTH_STENCIL_ATTACHMENT_OPTIMAL
  | SHADER_READ_ONLY_OPTIMAL
  | TRANSFER_SRC_OPTIMAL
  | TRANSFER_DST_OPTIMAL
  | PRESENT_SRC_KHR
  deriving DecidableEq, Repr

/-- `enum class VKRRenderCommand` (VulkanQueueRunner.h lines 84-96). -/
inductive VKRRenderCommand where
  | REMOVED
  | BIND_PIPELINE
  | STENCIL
  | BLEND
  | VIEWPORT
  | SCISSOR
  | CLEAR
  | DRAW
  | DRAW_INDEXED
  | PUSH_CONSTANTS
  deriving DecidableEq, Repr

/-- `enum class VKRStepType` (VulkanQueueRunner.h lines 156-163). -/
inductive VKRStepType where
  | RENDER
  | RENDER_SKIP
  | COPY
  | BLIT
  | READBACK
  | READBACK_IMAGE
  deriving DecidableEq, Repr

/-- `enum class VKRRenderPassAction` (VulkanQueueRunner.h lines 165-169). -/
inductive VKRRenderPassAction where
  | DONT_CARE
  | CLEAR
  | KEEP
  deriving DecidableEq, Repr

/-- `struct VkRenderData` (VulkanQueueRunner.h lines 98-154).  The optimizer
passes move commands between steps wholesale; the only payload fields any
pass inspects are the tag `cmd` and the count read as `draw.count` by
`ApplyMGSHack` (line 510).  `payload` stands for the remaining recorded
bytes of the union, which the queue runner only ever copies around. -/
structure VkRenderData where
  cmd : VKRRenderCommand
  draw_count : Nat := 0
  payload : Nat := 0
  deriving DecidableEq, Repr

/-- `struct TransitionRequest` (VulkanQueueRunner.h lines 171-174). -/
structure TransitionRequest where
  fb : Nat
  targetLayout : VkImageLayout
  deriving DecidableEq, Repr

/-- `struct VKRStep` (VulkanQueueRunner.h lines 184-232), with the union
flattened into one field per member (see the file comment).  Framebuffer
pointers are `Option Nat`; `dependencies` models the `TinySet` by its
contents.  `clearDepth` is the bit pattern of the C++ `float`. -/
structure VKRStep where
  stepType : VKRStepType
  commands : List VkRenderData := []
  preTransitions : List TransitionRequest := []
  dependencies : List (Option Nat) := []
  -- union member `render`
  framebuffer : Option Nat := none
  color : VKRRenderPassAction := .DONT_CARE
  depth : VKRRenderPassAction := .DONT_CARE
  stencil : VKRRenderPassAction := .DONT_CARE
  clearColor : Nat := 0
  clearDepth : Nat := 0
  clearStencil : Nat := 0
  numDraws : Nat := 0
  numReads : Nat := 0
  finalColorLayout : VkImageLayout := .UNDEFINED
  -- union member `copy`
  copy_src : Option Nat := none
  copy_dst : Option Nat := none
  -- union member `blit`
  blit_src : Option Nat := none
  blit_dst : Option Nat := none
  -- union member `readback`
  readback_src : Option Nat := none
  readback_w : Nat := 0
  readback_h : Nat := 0
  deriving DecidableEq, Repr

instance : Inhabited VKRStep :=
  ⟨{ stepType := .RENDER }⟩

/-- `TinySet::insert` (VulkanQueueRunner.h lines 24-37): insert-only set,
no effect when the element is already present. -/
def tinyInsert (s : List (Option Nat)) (x : Option Nat) : List (Option Nat) :=
  if x ∈ s then s else s ++ [x]

/-- `TinySet::contains(T)` (VulkanQueueRunner.h lines 38-50). -/
def tinyContains (s : List (Option Nat)) (x : Option Nat) : Bool :=
  decide (x ∈ s)

/-- `TinySet::contains(const TinySet &)` (VulkanQueueRunner.h lines 51-64):
true when the two sets intersect. -/
def tinyIntersects (s other : List (Option Nat)) : Bool :=
  s.any (fun x => decide (x ∈ other))

/-! ### The final-color-layout fix-up (`RunSteps`, lines 388-395) -/

/-- Lines 388-395 of `RunSteps`: a render step to an offscreen framebuffer
whose final color layout is still `UNDEFINED` is given
`COLOR_ATTACHMENT_OPTIMAL`. -/
def fixupFinalLayout (s : VKRStep) : VKRStep :=
  if s.stepType = .RENDER ∧ s.framebuffer ≠ none ∧
      s.finalColorLayout = .UNDEFINED then
    { s with finalColorLayout := .COLOR_ATTACHMENT_OPTIMAL }
  else s

/-! ### The dead-clear fold (`RunSteps`, lines 397-434) -/

/-- Lines 410-421 of `RunSteps`: upgrade each non-clear load action of the
absorbing step to clear, taking the clear value from the dropped step `cj`. -/
def upgradeClear (cj s : VKRStep) : VKRStep :=
  let s1 := if s.color ≠ VKRRenderPassAction.CLEAR then
    { s with color := .CLEAR, clearColor := cj.clearColor } else s
  let s2 := if s1.depth ≠ VKRRenderPassAction.CLEAR then
    { s1 with depth := .CLEAR, clearDepth := cj.clearDepth } else s1
  if s2.stencil ≠ VKRRenderPassAction.CLEAR then
    { s2 with stencil := .CLEAR, clearStencil := cj.clearStencil } else s2

/-- `steps[j]->stepType = VKRStepType::RENDER_SKIP` -/
def markSkip (s : VKRStep) : VKRStep :=
  { s with stepType := .RENDER_SKIP }

/-- The inner loop of the dead-clear fold (`RunSteps` lines 407-432): scan
forward from the empty clear step `cj`; at the first render step to the same
framebuffer, fold the clear in and report the rewritten tail; at a copy whose
source is that framebuffer, abort (`none`); `none` as well when the scan runs
off the end. -/
def clearScanFold (cj : VKRStep) : List VKRStep → Option (List VKRStep)
  | [] => none
  | s :: rest =>
    if s.stepType = .RENDER ∧ s.framebuffer = cj.framebuffer then
      some (upgradeClear cj s :: rest)
    else if s.stepType = .COPY ∧ s.copy_src = cj.framebuffer then
      none
    else (clearScanFold cj rest).map (s :: ·)

theorem clearScanFold_length (cj : VKRStep) :
    ∀ l l2, clearScanFold cj l = some l2 → l2.length = l.length := by
  intro l
  induction l with
  | nil => intro l2 h; simp [clearScanFold] at h
  | cons s rest ih =>
    intro l2 h
    simp only [clearScanFold] at h
    split at h
    · cases h; simp
    · split at h
      · cases h
      · rcases Option.map_eq_some'.mp h with ⟨t, ht, rfl⟩
        simp [ih t ht]

/-- `steps[j]` qualifies as a dead clear step (`RunSteps` lines 399-404). -/
def isEmptyClear (s : VKRStep) : Prop :=
  s.stepType = .RENDER ∧ s.numDraws = 0 ∧ s.numReads = 0 ∧
    s.color = .CLEAR ∧ s.stencil = .CLEAR ∧ s.depth = .CLEAR

instance (s : VKRStep) : Decidable (isEmptyClear s) := by
  unfold isEmptyClear; infer_instance

/-- The dead-clear pass of `RunSteps` (lines 397-434): push empty
clear/store render passes into the next render step touching the same
framebuffer.  The C++ walks indices left to right over the vector it is
mutating in place; here each head is processed and the (same-length)
rewritten tail is recursed on. -/
def clearMergePass : List VKRStep → List VKRStep
  | [] => []
  | s :: rest =>
    if isEmptyClear s then
      match h : clearScanFold s rest with
      | some rest2 => markSkip s :: clearMergePass rest2
      | none => s :: clearMergePass rest
    else s :: clearMergePass rest
termination_by l => l.length
decreasing_by
  · simp [clearScanFold_length s rest rest2 h]
  · simp
  · simp

/-! ### The MGS hack (`ApplyMGSHack`, lines 488-630) -/

/-- `steps[i]->commands.push_back(...)` for each element of `cs`, in order. -/
def absorbCmds (s : VKRStep) (cs : List VkRenderData) : VKRStep :=
  { s with commands := s.commands ++ cs }

/-- `steps[i]->preTransitions.insert(end, ...)` followed by the same for
commands (`ApplyRenderPassMerge` lines 779-780). -/
def absorbStep (s : VKRStep) (pres : List TransitionRequest)
    (cs : List VkRenderData) : VKRStep :=
  { s with preTransitions := s.preTransitions ++ pres,
           commands := s.commands ++ cs }

/-- The pattern guard of the first `ApplyMGSHack` loop (lines 493-500):
at least four steps remain and the window starts copy, render(1), copy
with both copies sharing a destination. -/
def mgs1Precond : List VKRStep → Prop
  | s0 :: s1 :: s2 :: _ :: _ =>
    s0.stepType = .COPY ∧ s1.stepType = .RENDER ∧ s2.stepType = .COPY ∧
      s1.numDraws = 1 ∧ s0.copy_dst = s2.copy_dst
  | _ => False

instance (l : List VKRStep) : Decidable (mgs1Precond l) := by
  unfold mgs1Precond
  split <;> infer_instance

/-- The conditions under which the scan of the first `ApplyMGSHack` loop
records `last = j - 1` (lines 502-523).  On a `DRAW_INDEXED` command the
C++ reads `cmd.draw.count`, a union member of the `drawIndexed` payload;
the model reads the same recorded count field. -/
def mgs1Stops (dst : Option Nat) (s : VKRStep) : Prop :=
  match s.stepType with
  | .RENDER =>
    1 < s.numDraws ∨
      (∃ c, s.commands.getLast? = some c ∧ c.cmd = .DRAW_INDEXED ∧
        c.draw_count ≠ 6)
  | .COPY => s.copy_dst ≠ dst
  | _ => False

instance (dst : Option Nat) (s : VKRStep) : Decidable (mgs1Stops dst s) := by
  unfold mgs1Stops
  split <;> infer_instance

/-- The scan of the first `ApplyMGSHack` loop: offset of the first step at
which `last` gets set (the C++ `last` is that offset minus one, counted
from `i`), or `none` when the loop runs to the end of the list with
`last` still `-1`. -/
def mgs1Scan (dst : Option Nat) : List VKRStep → Option Nat
  | [] => none
  | s :: rest =>
    if mgs1Stops dst s then some 0
    else (mgs1Scan dst rest).map (· + 1)

/-- `renders[0]` absorbs the commands of the later renders, which become
skip markers (lines 546-553; also the combine shape of `ApplySonicHack`,
lines 694-706). -/
def mergeGroup : List VKRStep → List VKRStep
  | [] => []
  | r :: rs => absorbCmds r (rs.flatMap (·.commands)) :: rs.map markSkip

/-- The rewrite of the first `ApplyMGSHack` loop (lines 525-556) on the
window of length `o` (`o = last - i + 1`): copies first, then the renders
merged into one, then whatever positions of the window the write-back did
not cover (steps of other kinds are dropped from `copies`/`renders`, so
the tail of the window keeps its previous contents). -/
def mgs1Rewrite (l : List VKRStep) (o : Nat) : List VKRStep :=
  let seg := l.take o
  let copies := seg.filter (fun s => s.stepType = .COPY)
  let renders := seg.filter (fun s => s.stepType = .RENDER)
  copies ++ mergeGroup renders ++
    seg.drop (copies.length + renders.length) ++ l.drop o

/-- The first loop of `ApplyMGSHack` (lines 493-557): try the window at
each position; on the first position where the pattern matches and the
scan sets `last`, rewrite and stop (the C++ `break`). -/
def applyMGSHackLoop1 : List VKRStep → List VKRStep
  | [] => []
  | s :: rest =>
    if mgs1Precond (s :: rest) then
      match mgs1Scan s.copy_dst (s :: rest) with
      | some o => mgs1Rewrite (s :: rest) o
      | none => s :: applyMGSHackLoop1 rest
    else s :: applyMGSHackLoop1 rest

/-- The pattern guard of the depal loop of `ApplyMGSHack` (lines 561-572):
at least four steps remain and the window starts with three render(1)
steps whose color actions are dont-care, keep, dont-care. -/
def depalPrecond : List VKRStep → Prop
  | s0 :: s1 :: s2 :: _ :: _ =>
    s0.stepType = .RENDER ∧ s1.stepType = .RENDER ∧ s2.stepType = .RENDER ∧
      s0.numDraws = 1 ∧ s1.numDraws = 1 ∧ s2.numDraws = 1 ∧
      s0.color = .DONT_CARE ∧ s1.color = .KEEP ∧ s2.color = .DONT_CARE
  | _ => False

instance (l : List VKRStep) : Decidable (depalPrecond l) := by
  unfold depalPrecond
  split <;> infer_instance

/-- One position check of the depal scan (lines 577-595): even offsets
from `i` must look like a depal draw, odd offsets like a target draw.
The C++ reads the `render` union members without checking the step type. -/
def depalMatch (depalFb targetFb : Option Nat) (odd : Bool) (s : VKRStep) :
    Prop :=
  if odd then
    s.numDraws = 1 ∧ s.color = .KEEP ∧ s.framebuffer = targetFb
  else
    s.numDraws = 1 ∧ s.color = .DONT_CARE ∧ s.framebuffer = depalFb

instance (depalFb targetFb : Option Nat) (odd : Bool) (s : VKRStep) :
    Decidable (depalMatch depalFb targetFb odd s) := by
  unfold depalMatch
  split <;> infer_instance

/-- The depal scan (`ApplyMGSHack` lines 576-596): the loop runs `j` from
`i` while `j < size - 3` (fewer than four steps left ends it), records
`last = j` at each matching step and breaks at the first mismatch.  The
result is the final `last` as an offset from `i`, or `none` for `-1`. -/
def depalScan (depalFb targetFb : Option Nat) (odd : Bool) :
    List VKRStep → Option Nat
  | [] => none
  | s :: rest =>
    if (s :: rest).length < 4 then none
    else if depalMatch depalFb targetFb odd s then
      match depalScan depalFb targetFb (!odd) rest with
      | none => some 0
      | some k => some (k + 1)
    else none

/-- `DRAW` and `DRAW_INDEXED` commands of a step, in order: the only
commands the depal combine loops migrate (lines 602-625). -/
def drawsOnly (cs : List VkRenderData) : List VkRenderData :=
  cs.filter (fun c => c.cmd = .DRAW ∨ c.cmd = .DRAW_INDEXED)

/-- Offsets rewritten by the depal combine loop for depal renders
(lines 602-612): `j` from `i+2` to `last+1`, step 2. -/
def inDepalRange (o last : Nat) : Prop := 2 ≤ o ∧ o ≤ last + 1 ∧ o % 2 = 0

/-- Offsets rewritten by the depal combine loop for target renders
(lines 615-625): `j` from `i+3` to `last`, step 2. -/
def inTargetRange (o last : Nat) : Prop := 3 ≤ o ∧ o ≤ last ∧ o % 2 = 1

instance (o last : Nat) : Decidable (inDepalRange o last) := by
  unfold inDepalRange; infer_instance

instance (o last : Nat) : Decidable (inTargetRange o last) := by
  unfold inTargetRange; infer_instance

/-- Draws collected into `steps[i]` by the depal combine loop, walking the
window tail whose head sits at offset `o`. -/
def depalCollect (o last : Nat) : List VKRStep → List VkRenderData
  | [] => []
  | s :: rest =>
    (if inDepalRange o last then drawsOnly s.commands else []) ++
      depalCollect (o + 1) last rest

/-- Draws collected into `steps[i+1]` by the target combine loop. -/
def targetCollect (o last : Nat) : List VKRStep → List VkRenderData
  | [] => []
  | s :: rest =>
    (if inTargetRange o last then drawsOnly s.commands else []) ++
      targetCollect (o + 1) last rest

/-- Steps at combined offsets become skip markers (lines 611 and 624). -/
def depalMark (o last : Nat) : List VKRStep → List VKRStep
  | [] => []
  | s :: rest =>
    (if inDepalRange o last ∨ inTargetRange o last then markSkip s else s) ::
      depalMark (o + 1) last rest

/-- The rewrite of the depal loop (lines 601-628): absorb draws into the
first depal render and the first target render, mark the sources skip. -/
def depalRewrite (l : List VKRStep) (last : Nat) : List VKRStep :=
  match l with
  | s0 :: s1 :: rest =>
    absorbCmds s0 (depalCollect 2 last rest) ::
      absorbCmds s1 (targetCollect 2 last rest) :: depalMark 2 last rest
  | l => l

/-- The depal loop of `ApplyMGSHack` (lines 561-629): try each position;
at the first position where the pattern matches and the scan found a
`last`, rewrite and stop. -/
def applyMGSHackLoop2 : List VKRStep → List VKRStep
  | [] => []
  | s :: rest =>
    if depalPrecond (s :: rest) then
      match depalScan s.framebuffer (rest.headI).framebuffer false
          (s :: rest) with
      | some last => depalRewrite (s :: rest) last
      | none => s :: applyMGSHackLoop2 rest
    else s :: applyMGSHackLoop2 rest

/-- `VulkanQueueRunner::ApplyMGSHack` (lines 488-630): the copy/render
fusion loop followed by the depal fusion loop. -/
def applyMGSHack (l : List VKRStep) : List VKRStep :=
  applyMGSHackLoop2 (applyMGSHackLoop1 l)

/-! ### The Sonic hack (`ApplySonicHack`, lines 632-711) -/

/-- The pattern guard of `ApplySonicHack` (lines 636-648): at least five
steps remain and the window starts with four render steps with draw counts
3, 1, 6, 1 alternating between two framebuffers. -/
def sonicPrecond : List VKRStep → Prop
  | s0 :: s1 :: s2 :: s3 :: _ :: _ =>
    s0.stepType = .RENDER ∧ s1.stepType = .RENDER ∧ s2.stepType = .RENDER ∧
      s3.stepType = .RENDER ∧ s0.numDraws = 3 ∧ s1.numDraws = 1 ∧
      s2.numDraws = 6 ∧ s3.numDraws = 1 ∧
      s0.framebuffer = s2.framebuffer ∧ s1.framebuffer = s3.framebuffer
  | _ => False

instance (l : List VKRStep) : Decidable (sonicPrecond l) := by
  unfold sonicPrecond
  split <;> infer_instance

/-- The conditions under which the Sonic scan records `last = j - 1`
(lines 650-670); only render steps are examined. -/
def sonicStops (fbA fbB : Option Nat) (odd : Bool) (s : VKRStep) : Prop :=
  s.stepType = .RENDER ∧
    (if odd then s.framebuffer ≠ fbB ∨ s.numDraws ≠ 1
     else s.framebuffer ≠ fbA ∨ (s.numDraws ≠ 3 ∧ s.numDraws ≠ 6))

instance (fbA fbB : Option Nat) (odd : Bool) (s : VKRStep) :
    Decidable (sonicStops fbA fbB odd s) := by
  unfold sonicStops
  infer_instance

/-- The Sonic scan: offset of the first stopping step, or `none` when the
loop runs to the end with `last` still `-1`. -/
def sonicScan (fbA fbB : Option Nat) (odd : Bool) :
    List VKRStep → Option Nat
  | [] => none
  | s :: rest =>
    if sonicStops fbA fbB odd s then some 0
    else (sonicScan fbA fbB (!odd) rest).map (· + 1)

/-- The rewrite of `ApplySonicHack` (lines 672-709) on the window of
length `o`: steps rendering to `fbA` first, then the others, each group
merged into its first member.  The C++ reads `render.framebuffer` of every
window step when partitioning, without checking the step type. -/
def sonicRewrite (fbA : Option Nat) (l : List VKRStep) (o : Nat) :
    List VKRStep :=
  let seg := l.take o
  let type1 := seg.filter (fun s => s.framebuffer = fbA)
  let type2 := seg.filter (fun s => ¬s.framebuffer = fbA)
  mergeGroup type1 ++ mergeGroup type2 ++ l.drop o

/-- `VulkanQueueRunner::ApplySonicHack` (lines 632-711): try the window at
each position; on the first position where the pattern matches and the
scan sets `last`, rewrite and stop. -/
def applySonicHack : List VKRStep → List VKRStep
  | [] => []
  | s :: rest =>
    if sonicPrecond (s :: rest) then
      match sonicScan s.framebuffer (rest.headI).framebuffer false
          (s :: rest) with
      | some o => sonicRewrite s.framebuffer (s :: rest) o
      | none => s :: applySonicHack rest
    else s :: applySonicHack rest

/-! ### The generic merge pass (`ApplyRenderPassMerge`, lines 748-813) -/

/-- What the forward scan of `ApplyRenderPassMerge` has produced: the
commands and pretransitions slurped into `steps[i]`, and the tail of the
list as left behind (absorbed steps marked skip, everything from the stop
point on untouched). -/
structure MergeScanOut where
  cmds : List VkRenderData
  pres : List TransitionRequest
  rest : List VKRStep
  deriving DecidableEq, Repr

/-- The forward scan of `ApplyRenderPassMerge` (lines 764-808) for merge
target `fb`, with `touched` the accumulated `touchedFramebuffers` set.
Render steps to `fb` are absorbed unless a dependency check fires; copies,
blits and readbacks touching `fb` end the scan (`goto done_fb`), as does a
render step whose dependency set contains `fb` or meets `touched`. -/
def mergeScan (fb : Option Nat) (touched : List (Option Nat)) :
    List VKRStep → MergeScanOut
  | [] => ⟨[], [], []⟩
  | s :: rest =>
    match s.stepType with
    | .RENDER =>
      if tinyContains s.dependencies fb then ⟨[], [], s :: rest⟩
      else if tinyIntersects s.dependencies touched then ⟨[], [], s :: rest⟩
      else if s.framebuffer = fb then
        let out := mergeScan fb touched rest
        ⟨s.commands ++ out.cmds, s.preTransitions ++ out.pres,
          markSkip s :: out.rest⟩
      else
        let out := mergeScan fb (tinyInsert touched s.framebuffer) rest
        ⟨out.cmds, out.pres, s :: out.rest⟩
    | .COPY =>
      if s.copy_src = fb ∨ s.copy_dst = fb then ⟨[], [], s :: rest⟩
      else
        let out := mergeScan fb (tinyInsert touched s.copy_dst) rest
        ⟨out.cmds, out.pres, s :: out.rest⟩
    | .BLIT =>
      if s.blit_src = fb ∨ s.blit_dst = fb then ⟨[], [], s :: rest⟩
      else
        let out := mergeScan fb (tinyInsert touched s.blit_dst) rest
        ⟨out.cmds, out.pres, s :: out.rest⟩
    | .READBACK =>
      if s.readback_src = fb then ⟨[], [], s :: rest⟩
      else
        let out := mergeScan fb touched rest
        ⟨out.cmds, out.pres, s :: out.rest⟩
    | _ =>
      let out := mergeScan fb touched rest
      ⟨out.cmds, out.pres, s :: out.rest⟩

theorem mergeScan_rest_length (fb : Option Nat) :
    ∀ touched l, (mergeScan fb touched l).rest.length = l.length := by
  intro touched l
  induction l generalizing touched with
  | nil => simp [mergeScan]
  | cons s rest ih =>
    unfold mergeScan
    split <;> (try split) <;> (try split) <;> (try split) <;> simp [ih]

/-- Lines 751-756 of `ApplyRenderPassMerge`: how many render steps target
`fb` (the `counts` map, built before any merging happens). -/
def countRender (steps : List VKRStep) (fb : Option Nat) : Nat :=
  (steps.filter (fun s => s.stepType = .RENDER ∧ s.framebuffer = fb)).length

/-- The outer loop of `ApplyRenderPassMerge` (lines 760-812), with
`counts` fixed at entry: a render step whose framebuffer is rendered to
more than once slurps forward via `mergeScan`, then the loop continues on
the (same-length) rewritten tail. -/
def mergeLoop (counts : Option Nat → Nat) : List VKRStep → List VKRStep
  | [] => []
  | s :: rest =>
    if s.stepType = .RENDER ∧ 1 < counts s.framebuffer then
      let out := mergeScan s.framebuffer [] rest
      absorbStep s out.pres out.cmds :: mergeLoop counts out.rest
    else s :: mergeLoop counts rest
termination_by l => l.length
decreasing_by
  · simp [mergeScan_rest_length]
  · simp

/-- `VulkanQueueRunner::ApplyRenderPassMerge` (lines 748-813). -/
def applyRenderPassMerge (steps : List VKRStep) : List VKRStep :=
  mergeLoop (countRender steps) steps

/-! ### The optimizer pipeline of `RunSteps` (lines 388-448) -/

def QUEUE_HACK_MGS2_ACID : Nat := 1
def QUEUE_HACK_SONIC : Nat := 2
def QUEUE_HACK_RENDERPASS_MERGE : Nat := 8

/-- Line 438-441 of `RunSteps`: the MGS hack, gated on its bit. -/
def applyHackMGS (hacks : Nat) (l : List VKRStep) : List VKRStep :=
  if hacks &&& QUEUE_HACK_MGS2_ACID ≠ 0 then applyMGSHack l else l

/-- Line 442-444 of `RunSteps`: the Sonic hack, gated on its bit. -/
def applyHackSonic (hacks : Nat) (l : List VKRStep) : List VKRStep :=
  if hacks &&& QUEUE_HACK_SONIC ≠ 0 then applySonicHack l else l

/-- Line 445-447 of `RunSteps`: the generic merge pass, gated on its bit. -/
def applyHackMerge (hacks : Nat) (l : List VKRStep) : List VKRStep :=
  if hacks &&& QUEUE_HACK_RENDERPASS_MERGE ≠ 0 then applyRenderPassMerge l
  else l

/-- The step-list rewriting performed by `RunSteps` before execution
(lines 388-448): the final-color-layout fix-up, the dead-clear fold, then
each queue hack gated on its bit of `hacksEnabled_`. -/
def runStepsOptimize (hacks : Nat) (steps : List VKRStep) : List VKRStep :=
  applyHackMerge hacks (applyHackSonic hacks (applyHackMGS hacks
    (clearMergePass (steps.map fixupFinalLayout))))

/-! ### The render-pass cache (`GetRenderPass`, lines 177-378) -/

/-- `VulkanQueueRunner::RPKey` (VulkanQueueRunner.h lines 267-275). -/
structure RPKey where
  colorLoadAction : VKRRenderPassAction
  depthLoadAction : VKRRenderPassAction
  stencilLoadAction : VKRRenderPassAction
  prevColorLayout : VkImageLayout
  prevDepthLayout : VkImageLayout
  finalColorLayout : VkImageLayout
  deriving DecidableEq, Repr

/-- Lookup in the association list modelling `renderPasses_`. -/
def findPass : List (RPKey × Nat) → RPKey → Option Nat
  | [], _ => none
  | (k, p) :: rest, key => if k = key then some p else findPass rest key

/-- Modelled from the spec: `renderPasses_` is a
`DenseHashMap<RPKey, VkRenderPass, VK_NULL_HANDLE>` whose implementation
(Common/Hashmaps.h) is not under src/; per the spec it is an append-only
map from keys to pass handles, modelled as an association list plus a
fresh-handle supply for `vkCreateRenderPass` and a log of the hardware
render-pass objects created so far.  Handles are positive naturals; `0`
stands for `VK_NULL_HANDLE`. -/
structure RPCacheState where
  cache : List (RPKey × Nat)
  nextHandle : Nat
  created : List Nat
  deriving DecidableEq, Repr

/-- `VulkanQueueRunner::GetRenderPass(const RPKey &)` (lines 177-378): a
cache hit returns at once (lines 178-181); otherwise a render pass is
built from the key and inserted (lines 183-377).  The attachment and
subpass-dependency payload built in between configures the hardware
object and never touches the cache; the object is represented by the
fresh nonzero handle the creation call returns. -/
def getRenderPass (st : RPCacheState) (key : RPKey) : Nat × RPCacheState :=
  match findPass st.cache key with
  | some pass => (pass, st)
  | none =>
    let pass := st.nextHandle + 1
    (pass, ⟨st.cache ++ [(key, pass)], pass, st.created ++ [pass]⟩)

/-! ### Layout transitions (`SetupTransitionToTransferSrc`, lines
1361-1418, and its callers) -/

/-- `struct VKRImage` is declared in VulkanRenderManager.h, which is not
under src/.  Modelled from the spec: a framebuffer image is an opaque
handle together with a single current-layout tag. -/
structure VKRImage where
  image : Nat
  layout : VkImageLayout
  deriving DecidableEq, Repr

/-- The observable core of a `VkImageMemoryBarrier` recorded by the
transition helpers: the layout pair.  Access masks and stage flags are
derived from the same pair by fixed lookup switches. -/
structure BarrierRec where
  oldLayout : VkImageLayout
  newLayout : VkImageLayout
  deriving DecidableEq, Repr

/-- `VulkanQueueRunner::SetupTransitionToTransferSrc` (lines 1361-1418):
fill a barrier from the image's current layout to
`TRANSFER_SRC_OPTIMAL` and update the image's layout tag. -/
def setupTransitionToTransferSrc (img : VKRImage) : VKRImage × BarrierRec :=
  ({ img with layout := .TRANSFER_SRC_OPTIMAL },
   ⟨img.layout, .TRANSFER_SRC_OPTIMAL⟩)

/-- The color-aspect source transition of `PerformCopy` (lines 1232-1235):
the `src->color.layout != TRANSFER_SRC_OPTIMAL` guard around
`SetupTransitionToTransferSrc`; the returned list is the barriers this
request appends to `srcBarriers`. -/
def performCopyTransitionSrcColor (img : VKRImage) :
    VKRImage × List BarrierRec :=
  if img.layout ≠ VkImageLayout.TRANSFER_SRC_OPTIMAL then
    let r := setupTransitionToTransferSrc img
    (r.1, [r.2])
  else (img, [])

/-- One iteration of the pretransition loop of `PerformRenderPass`
(lines 905-952) acting on the color image of the request's framebuffer:
if the layout tag differs from the requested target, record one barrier
and set the tag; otherwise do nothing. -/
def preTransitionColor (img : VKRImage) (target : VkImageLayout) :
    VKRImage × List BarrierRec :=
  if img.layout ≠ target then
    ({ img with layout := target }, [⟨img.layout, target⟩])
  else (img, [])

/-! ### The executor's layout updates (`PerformRenderPass`, lines
903-1132) -/

/-- Modelled from the spec: a `VKRFramebuffer` (VulkanRenderManager.h, not
under src/) owns a color image and a depth/stencil image, each with a
mutable current-layout tag. -/
structure VKRFramebuffer where
  color : VKRImage
  depth : VKRImage
  deriving DecidableEq, Repr

/-- The pool of framebuffer objects, indexed by the `Nat` standing for
the `VKRFramebuffer *`. -/
def FbPool : Type := Nat → VKRFramebuffer

/-- Point update of the pool. -/
def updFb (fbs : FbPool) (i : Nat) (g : VKRFramebuffer → VKRFramebuffer) :
    FbPool :=
  fun j => if j = i then g (fbs j) else fbs j

/-- The layout-tag effect of `VulkanQueueRunner::PerformRenderPass`
(lines 903-1132) on the framebuffer pool.  In order: the pretransition
loop (905-953); the early return for a commandless pass that keeps
color, depth and stencil (955-959); for an offscreen target, the Mali
driver workaround (1149-1163, gated on an exact driver version, here the
flag `mali`), the layout updates of
`PerformBindFramebufferAsRenderTarget` (1170-1171), and the final
assignment of the declared final color layout (1129-1131).  The command
replay loop (995-1125) never writes a layout tag. -/
def performRenderPass (mali : Bool) (fbs : FbPool) (step : VKRStep) :
    FbPool :=
  let fbs1 := step.preTransitions.foldl
    (fun fbs req =>
      if (fbs req.fb).color.layout ≠ req.targetLayout then
        updFb fbs req.fb
          (fun fb => { fb with color := { fb.color with
            layout := req.targetLayout } })
      else fbs)
    fbs
  if step.commands = [] ∧ step.color = VKRRenderPassAction.KEEP ∧
      step.depth = VKRRenderPassAction.KEEP ∧
      step.stencil = VKRRenderPassAction.KEEP then
    fbs1
  else
    match step.framebuffer with
    | none => fbs1
    | some f =>
      let fbs2 :=
        if mali ∧ step.numDraws = 0 ∧
            step.color = VKRRenderPassAction.CLEAR then
          updFb fbs1 f (fun fb => { fb with color := { fb.color with
            layout := VkImageLayout.GENERAL } })
        else fbs1
      let fbs3 := updFb fbs2 f (fun fb =>
        { fb with
          color := { fb.color with
            layout := VkImageLayout.COLOR_ATTACHMENT_OPTIMAL },
          depth := { fb.depth with
            layout := VkImageLayout.DEPTH_STENCIL_ATTACHMENT_OPTIMAL } })
      updFb fbs3 f (fun fb => { fb with color := { fb.color with
        layout := step.finalColorLayout } })

/-! ### The readback staging buffer (`ResizeReadbackBuffer`, lines 32-86,
and `PerformReadback`, line 1480) -/

/-- The staging-buffer fields of the queue runner (VulkanQueueRunner.h
lines 341-344).  Handles are drawn from `nextHandle`; `none` stands for
`VK_NULL_HANDLE`. -/
structure ReadbackState where
  buffer : Option Nat
  memory : Option Nat
  size : Nat
  coherent : Bool
  nextHandle : Nat
  deriving DecidableEq, Repr

/-- `VulkanQueueRunner::ResizeReadbackBuffer` (lines 32-86): nothing
happens when a buffer exists and is already large enough; otherwise the
old buffer and memory are queued for deferred deletion, the recorded size
becomes exactly the requested size, and a new buffer is created and
bound.  `allocOk` is whether `vkAllocateMemory` succeeds (on failure the
new buffer is destroyed again and both handles are nulled, lines 78-83);
`coh` is whether the memory type chosen by the preference loop
(lines 62-75) is host-coherent. -/
def resizeReadbackBuffer (allocOk coh : Bool) (st : ReadbackState)
    (required : Nat) : ReadbackState :=
  if st.buffer.isSome ∧ required ≤ st.size then st
  else
    let buf := st.nextHandle
    if allocOk then
      { buffer := some buf, memory := some (buf + 1), size := required,
        coherent := coh, nextHandle := st.nextHandle + 2 }
    else
      { buffer := none, memory := none, size := required,
        coherent := coh, nextHandle := st.nextHandle + 1 }

/-- The size in bytes `PerformReadback` requests for a `w`-by-`h` region
(line 1480): `sizeof(uint32_t) * width * height`, computed in the 64-bit
`size_t`/`VkDeviceSize` domain. -/
def readbackRequiredBytes (w h : Nat) : Nat :=
  (4 * w * h) % 2 ^ 64

/-- The staging-buffer effect of `VulkanQueueRunner::PerformReadback`
(line 1480): resize to the byte size of the requested region. -/
def performReadbackResize (allocOk coh : Bool) (st : ReadbackState)
    (w h : Nat) : ReadbackState :=
  resizeReadbackBuffer allocOk coh st (readbackRequiredBytes w h)

/-! ### The readback copy-out dispatch (`CopyReadbackBuffer`, lines
1575-1618) -/

/-- Modelled from the spec: `Draw::DataFormat` (thin3d/DataFormat.h is not
under src/).  The constructors named by `CopyReadbackBuffer` plus
representative further formats, since the spec says the supported
conversions are a small fixed set. -/
inductive DataFormat where
  | R8G8B8A8_UNORM
  | B8G8R8A8_UNORM
  | D32F
  | R16_UNORM
  | D16
  deriving DecidableEq, Repr

/-- Which conversion routine `CopyReadbackBuffer` hands the mapped bytes
to (lines 1598-1611). -/
inductive CopyOutConversion where
  | fromRGBA8888
  | fromBGRA8888
  | sameFormatRowCopy
  | toD32F
  deriving DecidableEq, Repr

/-- What a `CopyReadbackBuffer` call did: which conversion (if any) wrote
into the caller's pixel buffer, and whether an error was logged. -/
structure CopyOutResult where
  written : Option CopyOutConversion
  loggedError : Bool
  deriving DecidableEq, Repr

/-- The format dispatch of `VulkanQueueRunner::CopyReadbackBuffer`
(lines 1598-1616), reached once the staging memory exists and is mapped:
source `R8G8B8A8_UNORM` and `B8G8R8A8_UNORM` convert, equal formats
row-copy, destination `D32F` converts depth; anything else logs
"Unknown format" and writes nothing (the `assert(false)` beside the log
is compiled out in release builds, so control continues to the unmap and
the caller proceeds). -/
def copyReadbackBufferDispatch (srcFormat destFormat : DataFormat) :
    CopyOutResult :=
  if srcFormat = DataFormat.R8G8B8A8_UNORM then
    ⟨some .fromRGBA8888, false⟩
  else if srcFormat = DataFormat.B8G8R8A8_UNORM then
    ⟨some .fromBGRA8888, false⟩
  else if srcFormat = destFormat then
    ⟨some .sameFormatRowCopy, false⟩
  else if destFormat = DataFormat.D32F then
    ⟨some .toD32F, false⟩
  else
    ⟨none, true⟩

/-! ### Derived notions the verified properties are stated with -/

/-- The commands recorded in render steps targeting `fb`, flattened in
step order: what the executor's command replay would traverse for that
framebuffer. -/
def flatCmds (fb : Option Nat) (l : List VKRStep) : List VkRenderData :=
  l.flatMap (fun s =>
    if s.stepType = .RENDER ∧ s.framebuffer = fb then s.commands else [])

/-- A step past which the forward scan of `ApplyRenderPassMerge` for
target `fb` never merges: a render step whose dependency set contains
`fb`, or a copy/blit whose source or destination is `fb`, or a readback
whose source is `fb`. -/
def stopsMergeScan (fb : Option Nat) (s : VKRStep) : Prop :=
  (s.stepType = .RENDER ∧ fb ∈ s.dependencies) ∨
    (s.stepType = .COPY ∧ (s.copy_src = fb ∨ s.copy_dst = fb)) ∨
    (s.stepType = .BLIT ∧ (s.blit_src = fb ∨ s.blit_dst = fb)) ∨
    (s.stepType = .READBACK ∧ s.readback_src = fb)

instance (fb : Option Nat) (s : VKRStep) : Decidable (stopsMergeScan fb s) := by
  unfold stopsMergeScan
  infer_instance

/-- The property the assertion of `PerformBindFramebufferAsRenderTarget`
(line 1142) checks on a render step with an offscreen target: the final
color layout the step declares is defined. -/
def StepSafe (s : VKRStep) : Prop :=
  s.stepType = .RENDER → s.framebuffer ≠ none →
    s.finalColorLayout ≠ .UNDEFINED

instance (s : VKRStep) : Decidable (StepSafe s) := by
  unfold StepSafe
  infer_instance

/-! ### Concrete inputs used by witnesses and counterexamples -/

/-- A cache key for witness instantiation. -/
def key0 : RPKey :=
  ⟨.CLEAR, .KEEP, .DONT_CARE, .UNDEFINED, .UNDEFINED,
    .COLOR_ATTACHMENT_OPTIMAL⟩

/-- A cache state in which `key0` maps to handle 7. -/
def cacheSt0 : RPCacheState := ⟨[(key0, 7)], 7, [7]⟩

/-- A color image currently in attachment layout. -/
def img0 : VKRImage := ⟨5, .COLOR_ATTACHMENT_OPTIMAL⟩

/-- A framebuffer pool in which every framebuffer is in the attachment
layouts. -/
def fbPool0 : FbPool :=
  fun _ => ⟨⟨0, .COLOR_ATTACHMENT_OPTIMAL⟩,
    ⟨1, .DEPTH_STENCIL_ATTACHMENT_OPTIMAL⟩⟩

/-- A commandless keep/keep/keep render step to offscreen framebuffer 1
declaring a different final color layout. -/
def emptyKeepStep : VKRStep :=
  { stepType := .RENDER, framebuffer := some 1, color := .KEEP,
    depth := .KEEP, stencil := .KEEP,
    finalColorLayout := .SHADER_READ_ONLY_OPTIMAL }

/-- A one-draw render step to offscreen framebuffer 1. -/
def drawStep1 : VKRStep :=
  { stepType := .RENDER, framebuffer := some 1,
    commands := [⟨.DRAW, 0, 21⟩], numDraws := 1, color := .CLEAR,
    finalColorLayout := .SHADER_READ_ONLY_OPTIMAL }

/-- An empty staging-buffer state. -/
def rbEmpty : ReadbackState := ⟨none, none, 0, false, 0⟩

/-- A staging-buffer state holding a 40000-byte buffer. -/
def rbFull : ReadbackState := ⟨some 1, some 2, 40000, true, 3⟩

/-- An empty clear step to framebuffer 1 (dead-clear fold source). -/
def clearStep0 : VKRStep :=
  { stepType := .RENDER, framebuffer := some 1, color := .CLEAR,
    depth := .CLEAR, stencil := .CLEAR, clearColor := 7, clearDepth := 8,
    clearStencil := 9, finalColorLayout := .COLOR_ATTACHMENT_OPTIMAL }

/-- A copy between framebuffers unrelated to framebuffer 1. -/
def copyOther : VKRStep :=
  { stepType := .COPY, copy_src := some 5, copy_dst := some 6 }

/-- A keep/keep/keep render step to framebuffer 1 (dead-clear fold
destination). -/
def keepStep1 : VKRStep :=
  { stepType := .RENDER, framebuffer := some 1, color := .KEEP,
    depth := .KEEP, stencil := .KEEP, numDraws := 2,
    commands := [⟨.DRAW, 0, 31⟩],
    finalColorLayout := .COLOR_ATTACHMENT_OPTIMAL }

/-- A copy reading from framebuffer 1 (dead-clear fold aborter; also a
merge-scan barrier for framebuffer 1). -/
def copyFrom1 : VKRStep :=
  { stepType := .COPY, copy_src := some 1, copy_dst := some 6 }

/-- A render step to framebuffer 1 carrying one draw command (merge-scan
witness material). -/
def render1a : VKRStep :=
  { stepType := .RENDER, framebuffer := some 1, numDraws := 1,
    commands := [⟨.DRAW, 0, 41⟩],
    finalColorLayout := .COLOR_ATTACHMENT_OPTIMAL }

/-- A second render step to framebuffer 1 carrying one draw command. -/
def render1b : VKRStep :=
  { stepType := .RENDER, framebuffer := some 1, numDraws := 1,
    commands := [⟨.DRAW, 0, 42⟩],
    finalColorLayout := .COLOR_ATTACHMENT_OPTIMAL }

/-- A render step to offscreen framebuffer 1 with the final color layout
still undefined (fix-up witness material). -/
def undefStep : VKRStep :=
  { stepType := .RENDER, framebuffer := some 1 }

/-- A copy step between framebuffers 4 and 5 whose dependency set
contains framebuffer 1 (the merge scan of `ApplyRenderPassMerge` only
consults the dependency sets of render steps, so it scans across this
one). -/
def copyDeps1 : VKRStep :=
  { stepType := .COPY, copy_src := some 4, copy_dst := some 5,
    dependencies := [some 1] }

/-- The draw command of the stray render step of the MGS failing input. -/
def cmdDrawX : VkRenderData := ⟨.DRAW, 0, 42⟩

/-- MGS failing input, position 0: a depal-shaped render to framebuffer 1. -/
def mgsDepal0 : VKRStep :=
  { stepType := .RENDER, framebuffer := some 1, numDraws := 1,
    color := .DONT_CARE, commands := [⟨.DRAW, 0, 10⟩],
    finalColorLayout := .COLOR_ATTACHMENT_OPTIMAL }

/-- MGS failing input, position 1: a target-shaped render to
framebuffer 2. -/
def mgsTarget1 : VKRStep :=
  { stepType := .RENDER, framebuffer := some 2, numDraws := 1,
    color := .KEEP, commands := [⟨.DRAW, 0, 11⟩],
    finalColorLayout := .COLOR_ATTACHMENT_OPTIMAL }

/-- MGS failing input, position 2: a render to framebuffer 3, which fails
the depal scan's framebuffer-identity check. -/
def mgsStray2 : VKRStep :=
  { stepType := .RENDER, framebuffer := some 3, numDraws := 1,
    color := .DONT_CARE, commands := [cmdDrawX],
    finalColorLayout := .COLOR_ATTACHMENT_OPTIMAL }

/-- Filler readback step keeping the MGS failing input long enough for
the pattern guard. -/
def fillerRb : VKRStep :=
  { stepType := .READBACK, readback_src := some 9 }

/-- The MGS failing input: the three-step depal pattern guard matches at
position 0, the scan rejects position 2, yet the rewrite absorbs it. -/
def mgsSteps : List VKRStep :=
  [mgsDepal0, mgsTarget1, mgsStray2, fillerRb, fillerRb, fillerRb]

/-! ## Theorems -/

theorem clearMergePass_nil : clearMergePass [] = [] := by
  unfold clearMergePass
  rfl

theorem clearMergePass_fold (s : VKRStep) (rest rest2 : List VKRStep)
    (hc : isEmptyClear s) (hf : clearScanFold s rest = some rest2) :
    clearMergePass (s :: rest) = markSkip s :: clearMergePass rest2 := by
  conv_lhs => rw [clearMergePass]
  rw [if_pos hc]
  split
  · next r2 hr => rw [hf] at hr; cases hr; rfl
  · next hr => rw [hf] at hr; cases hr

theorem clearMergePass_nofold (s : VKRStep) (rest : List VKRStep)
    (hc : isEmptyClear s) (hf : clearScanFold s rest = none) :
    clearMergePass (s :: rest) = s :: clearMergePass rest := by
  conv_lhs => rw [clearMergePass]
  rw [if_pos hc]
  split
  · next r2 hr => rw [hf] at hr; cases hr
  · next hr => rfl

theorem clearMergePass_other (s : VKRStep) (rest : List VKRStep)
    (hc : ¬ isEmptyClear s) :
    clearMergePass (s :: rest) = s :: clearMergePass rest := by
  conv_lhs => rw [clearMergePass]
  rw [if_neg hc]

theorem mergeLoop_nil (counts : Option Nat → Nat) : mergeLoop counts [] = [] := by
  unfold mergeLoop
  rfl

theorem mergeLoop_merge (counts : Option Nat → Nat) (s : VKRStep)
    (rest : List VKRStep)
    (hc : s.stepType = VKRStepType.RENDER ∧ 1 < counts s.framebuffer) :
    mergeLoop counts (s :: rest) =
      absorbStep s (mergeScan s.framebuffer [] rest).pres
          (mergeScan s.framebuffer [] rest).cmds ::
        mergeLoop counts (mergeScan s.framebuffer [] rest).rest := by
  conv_lhs => rw [mergeLoop]
  rw [if_pos hc]

theorem mergeLoop_pass (counts : Option Nat → Nat) (s : VKRStep)
    (rest : List VKRStep)
    (hc : ¬(s.stepType = VKRStepType.RENDER ∧ 1 < counts s.framebuffer)) :
    mergeLoop counts (s :: rest) = s :: mergeLoop counts rest := by
  conv_lhs => rw [mergeLoop]
  rw [if_neg hc]

theorem findPass_append_fresh (c : List (RPKey × Nat)) (key : RPKey)
    (p : Nat) (hnone : findPass c key = none) :
    findPass (c ++ [(key, p)]) key = some p := by
  induction c with
  | nil => simp [findPass]
  | cons kp rest ih =>
    simp only [findPass, List.cons_append] at hnone ⊢
    split at hnone
    · exact absurd hnone (by simp)
    · simpa [*] using ih hnone

/-- Claim C3: for every render-pass cache key, two `GetRenderPass` calls
with equal keys return the same handle and leave the cache state of the
first call untouched, each call creates at most one hardware render-pass
object, and a call whose key is already cached is a pure lookup returning
the cached handle with no side effect. -/
theorem getRenderPass_idempotent (st : RPCacheState) (key : RPKey) :
    ((getRenderPass (getRenderPass st key).2 key).1 =
      (getRenderPass st key).1 ∧
     (getRenderPass (getRenderPass st key).2 key).2 =
      (getRenderPass st key).2 ∧
     (getRenderPass st key).2.created.length ≤ st.created.length + 1) ∧
    (∀ p, findPass st.cache key = some p → getRenderPass st key = (p, st)) := by
  constructor
  · match h : findPass st.cache key with
    | some p => simp [getRenderPass, h]
    | none =>
      have h2 := findPass_append_fresh st.cache key (st.nextHandle + 1) h
      simp [getRenderPass, h, h2]
  · intro p hp
    simp [getRenderPass, hp]

/-- Witness for C3: with `key0` cached at handle 7, the call is a pure
lookup. -/
theorem getRenderPass_idempotent_witness :
    findPass cacheSt0.cache key0 = some 7 ∧
      getRenderPass cacheSt0 key0 = (7, cacheSt0) :=
  ⟨by decide, (getRenderPass_idempotent cacheSt0 key0).2 7 (by decide)⟩

/-- Claim C4: requesting a layout transition twice in a row emits exactly
one barrier: the first request records one barrier and updates the layout
tag to the target, the second finds the tag already equal and records
nothing.  Stated for the generic pretransition of `PerformRenderPass` and
for the guarded `SetupTransitionToTransferSrc` call of `PerformCopy`. -/
theorem transition_twice_one_barrier (img : VKRImage) (L : VkImageLayout) :
    (img.layout ≠ L →
      (preTransitionColor img L).2.length = 1 ∧
      (preTransitionColor img L).1.layout = L ∧
      preTransitionColor (preTransitionColor img L).1 L =
        ((preTransitionColor img L).1, []) ∧
      (preTransitionColor img L).2.length +
        (preTransitionColor (preTransitionColor img L).1 L).2.length = 1) ∧
    (img.layout ≠ VkImageLayout.TRANSFER_SRC_OPTIMAL →
      (performCopyTransitionSrcColor img).2.length = 1 ∧
      (performCopyTransitionSrcColor img).1.layout =
        VkImageLayout.TRANSFER_SRC_OPTIMAL ∧
      performCopyTransitionSrcColor (performCopyTransitionSrcColor img).1 =
        ((performCopyTransitionSrcColor img).1, []) ∧
      (performCopyTransitionSrcColor img).2.length +
        (performCopyTransitionSrcColor
          (performCopyTransitionSrcColor img).1).2.length = 1) := by
  constructor
  · intro hne
    simp [preTransitionColor, hne]
  · intro hne
    simp [performCopyTransitionSrcColor, setupTransitionToTransferSrc, hne]

/-- Witness for C4: an image in attachment layout transitioned twice to
shader-read, and twice to transfer-src. -/
theorem transition_twice_one_barrier_witness :
    (img0.layout ≠ VkImageLayout.SHADER_READ_ONLY_OPTIMAL ∧
      (preTransitionColor img0 .SHADER_READ_ONLY_OPTIMAL).2.length +
        (preTransitionColor
          (preTransitionColor img0 .SHADER_READ_ONLY_OPTIMAL).1
          .SHADER_READ_ONLY_OPTIMAL).2.length = 1) ∧
    (img0.layout ≠ VkImageLayout.TRANSFER_SRC_OPTIMAL ∧
      (performCopyTransitionSrcColor img0).2.length +
        (performCopyTransitionSrcColor
          (performCopyTransitionSrcColor img0).1).2.length = 1) :=
  ⟨⟨by decide,
    ((transition_twice_one_barrier img0 .SHADER_READ_ONLY_OPTIMAL).1
      (by decide)).2.2.2⟩,
   ⟨by decide,
    ((transition_twice_one_barrier img0 .SHADER_READ_ONLY_OPTIMAL).2
      (by decide)).2.2.2⟩⟩

/-- Counterexample to claim C5 as stated: a commandless keep/keep/keep
render step to an offscreen framebuffer is skipped by the early return of
`PerformRenderPass` (lines 955-959), so the framebuffer's color layout
tag is not updated to the step's declared final color layout. -/
theorem performRenderPass_keep_layout_not_updated :
    emptyKeepStep.framebuffer = some 1 ∧
    emptyKeepStep.stepType = VKRStepType.RENDER ∧
    ¬ ((performRenderPass false fbPool0 emptyKeepStep) 1).color.layout =
      emptyKeepStep.finalColorLayout := by
  decide

/-- Claim C5 as amended: for every render step targeting an offscreen
framebuffer, except a commandless step whose color, depth and stencil
load actions are all keep (which the executor skips, leaving the layout
tag unchanged), running `PerformRenderPass` leaves the target
framebuffer's color layout tag equal to the step's declared final color
layout. -/
theorem performRenderPass_final_layout (mali : Bool) (fbs : FbPool)
    (step : VKRStep) (f : Nat) (hfb : step.framebuffer = some f)
    (hrun : ¬(step.commands = [] ∧ step.color = VKRRenderPassAction.KEEP ∧
      step.depth = VKRRenderPassAction.KEEP ∧
      step.stencil = VKRRenderPassAction.KEEP)) :
    ((performRenderPass mali fbs step) f).color.layout =
      step.finalColorLayout := by
  unfold performRenderPass
  rw [if_neg hrun, hfb]
  simp [updFb]

/-- Witness for C5 (amended): a one-draw clear render step to
framebuffer 1 leaves its color layout tag at the declared final layout. -/
theorem performRenderPass_final_layout_witness :
    drawStep1.framebuffer = some 1 ∧
    ¬(drawStep1.commands = [] ∧ drawStep1.color = VKRRenderPassAction.KEEP ∧
      drawStep1.depth = VKRRenderPassAction.KEEP ∧
      drawStep1.stencil = VKRRenderPassAction.KEEP) ∧
    ((performRenderPass false fbPool0 drawStep1) 1).color.layout =
      drawStep1.finalColorLayout :=
  ⟨by decide, by decide,
    performRenderPass_final_layout false fbPool0 drawStep1 1 (by decide)
      (by decide)⟩

/-- Claim C8: a readback of a `w`-by-`h` region issued while the staging
buffer is empty grows it to exactly `4 * w * h` bytes and not more; and
whenever a buffer exists whose capacity is at least the required size,
the resize request leaves the whole staging-buffer state unchanged. -/
theorem readback_staging_growth (st : ReadbackState) (w h required : Nat)
    (coh a : Bool) :
    (st.buffer = none → st.size = 0 → 4 * w * h < 2 ^ 64 →
      (performReadbackResize true coh st w h).size = 4 * w * h ∧
      (performReadbackResize true coh st w h).buffer.isSome = true) ∧
    (st.buffer.isSome = true → required ≤ st.size →
      resizeReadbackBuffer a coh st required = st) := by
  constructor
  · intro hb _ hlt
    have hreq : readbackRequiredBytes w h = 4 * w * h :=
      Nat.mod_eq_of_lt hlt
    simp [performReadbackResize, resizeReadbackBuffer, hb, hreq]
  · intro hb hle
    simp [resizeReadbackBuffer, hb, hle]

/-- Witness for C8: a 100-by-100 readback from the empty state grows the
buffer to exactly 40000 bytes, and a 16-byte request against a
40000-byte buffer changes nothing. -/
theorem readback_staging_growth_witness :
    (rbEmpty.buffer = none ∧ rbEmpty.size = 0 ∧
      4 * 100 * 100 < 2 ^ 64 ∧
      (performReadbackResize true false rbEmpty 100 100).size =
        4 * 100 * 100) ∧
    (rbFull.buffer.isSome = true ∧ 16 ≤ rbFull.size ∧
      resizeReadbackBuffer true true rbFull 16 = rbFull) :=
  ⟨⟨by decide, by decide, by norm_num,
    ((readback_staging_growth rbEmpty 100 100 16 false true).1 (by decide)
      (by decide) (by norm_num)).1⟩,
   ⟨by decide, by decide,
    (readback_staging_growth rbFull 100 100 16 true true).2 (by decide)
      (by decide)⟩⟩

/-- Claim C9: `CopyReadbackBuffer` invoked with a format pair outside the
supported set (source not `R8G8B8A8_UNORM` or `B8G8R8A8_UNORM`, formats
not equal, destination not `D32F`) logs an error and hands the mapped
bytes to no conversion routine, so nothing is written into the caller's
destination pixel buffer. -/
theorem copyReadbackBuffer_unsupported (src dst : DataFormat)
    (h1 : src ≠ DataFormat.R8G8B8A8_UNORM)
    (h2 : src ≠ DataFormat.B8G8R8A8_UNORM)
    (h3 : src ≠ dst) (h4 : dst ≠ DataFormat.D32F) :
    copyReadbackBufferDispatch src dst = ⟨none, true⟩ := by
  simp [copyReadbackBufferDispatch, h1, h2, h3, h4]

/-- Witness for C9: a depth-to-color conversion request is unsupported
and produces a logged error and no output. -/
theorem copyReadbackBuffer_unsupported_witness :
    DataFormat.D16 ≠ DataFormat.R8G8B8A8_UNORM ∧
    DataFormat.D16 ≠ DataFormat.B8G8R8A8_UNORM ∧
    DataFormat.D16 ≠ DataFormat.R16_UNORM ∧
    DataFormat.R16_UNORM ≠ DataFormat.D32F ∧
    copyReadbackBufferDispatch .D16 .R16_UNORM = ⟨none, true⟩ :=
  ⟨by decide, by decide, by decide, by decide,
    copyReadbackBuffer_unsupported .D16 .R16_UNORM (by decide) (by decide)
      (by decide) (by decide)⟩

/-- Claim C7, evaluated at the failing input: the depal fusion of
`ApplyMGSHack` fires on a sequence whose third step fails the scan's own
structural check (`mgsStray2` renders to framebuffer 3, not the depal
framebuffer 1), yet the rewrite absorbs that step's draw into the depal
render and marks it skip — a partial match producing a partial rewrite.
The hack runs only when its enable bit is set: with no bits set the
optimizer returns the input unchanged. -/
theorem applyMGSHack_partial_rewrite :
    ¬ depalMatch (some 1) (some 2) false mgsStray2 ∧
    applyMGSHack mgsSteps =
      [absorbCmds mgsDepal0 [cmdDrawX], mgsTarget1, markSkip mgsStray2,
        fillerRb, fillerRb, fillerRb] ∧
    runStepsOptimize QUEUE_HACK_MGS2_ACID mgsSteps ≠ mgsSteps ∧
    runStepsOptimize 0 mgsSteps = mgsSteps := by
  have hmap : mgsSteps.map fixupFinalLayout = mgsSteps := by decide
  have hclear : clearMergePass mgsSteps = mgsSteps := by
    unfold mgsSteps
    rw [clearMergePass_other _ _ (by decide),
      clearMergePass_other _ _ (by decide),
      clearMergePass_other _ _ (by decide),
      clearMergePass_other _ _ (by decide),
      clearMergePass_other _ _ (by decide),
      clearMergePass_other _ _ (by decide), clearMergePass_nil]
  refine ⟨by decide, by decide, ?_, ?_⟩
  · unfold runStepsOptimize applyHackMerge applyHackSonic applyHackMGS
    rw [hmap, hclear, if_neg (by decide), if_neg (by decide),
      if_pos (by decide)]
    decide
  · unfold runStepsOptimize applyHackMerge applyHackSonic applyHackMGS
    rw [hmap, hclear, if_neg (by decide), if_neg (by decide),
      if_neg (by decide)]

/-- Claim C2 as amended: the forward scan of `ApplyRenderPassMerge` for
target `fb` never reaches past a barrier step (a *render* step whose
dependency set contains `fb`, or a copy/blit whose source or destination
is `fb`, or a readback whose source is `fb`): whatever precedes the
barrier, the scan's rewritten tail keeps the barrier step and everything
beyond it exactly as they were, and the commands it absorbs are exactly
those it would absorb from the prefix alone. -/
theorem mergeScan_barrier (fb : Option Nat) (touched : List (Option Nat))
    (l1 : List VKRStep) (bad : VKRStep) (l2 : List VKRStep)
    (hbad : stopsMergeScan fb bad) :
    (∃ l1x, (mergeScan fb touched (l1 ++ bad :: l2)).rest =
        l1x ++ bad :: l2 ∧ l1x.length = l1.length) ∧
    (mergeScan fb touched (l1 ++ bad :: l2)).cmds =
      (mergeScan fb touched l1).cmds := by
  induction l1 generalizing touched with
  | nil =>
    have hstop : mergeScan fb touched (bad :: l2) = ⟨[], [], bad :: l2⟩ := by
      rcases hbad with ⟨h1, h2⟩ | ⟨h1, h2⟩ | ⟨h1, h2⟩ | ⟨h1, h2⟩ <;>
        simp [mergeScan, h1, h2, tinyContains]
    refine ⟨⟨[], by simp [hstop], rfl⟩, ?_⟩
    rw [List.nil_append, hstop]
    rfl
  | cons s l1 ih =>
    cases hs : s.stepType with
    | RENDER =>
      simp only [List.cons_append, mergeScan, hs]
      split_ifs with h1 h2 h3
      · exact ⟨⟨s :: l1, by simp, by simp⟩, rfl⟩
      · exact ⟨⟨s :: l1, by simp, by simp⟩, rfl⟩
      · obtain ⟨⟨l1x, hrest, hlen⟩, hcmds⟩ := ih touched
        exact ⟨⟨markSkip s :: l1x, by simp [hrest], by simp [hlen]⟩,
          by simp [hcmds]⟩
      · obtain ⟨⟨l1x, hrest, hlen⟩, hcmds⟩ :=
          ih (tinyInsert touched s.framebuffer)
        exact ⟨⟨s :: l1x, by simp [hrest], by simp [hlen]⟩, by simp [hcmds]⟩
    | COPY =>
      simp only [List.cons_append, mergeScan, hs]
      split_ifs with h1
      · exact ⟨⟨s :: l1, by simp, by simp⟩, rfl⟩
      · obtain ⟨⟨l1x, hrest, hlen⟩, hcmds⟩ :=
          ih (tinyInsert touched s.copy_dst)
        exact ⟨⟨s :: l1x, by simp [hrest], by simp [hlen]⟩, by simp [hcmds]⟩
    | BLIT =>
      simp only [List.cons_append, mergeScan, hs]
      split_ifs with h1
      · exact ⟨⟨s :: l1, by simp, by simp⟩, rfl⟩
      · obtain ⟨⟨l1x, hrest, hlen⟩, hcmds⟩ :=
          ih (tinyInsert touched s.blit_dst)
        exact ⟨⟨s :: l1x, by simp [hrest], by simp [hlen]⟩, by simp [hcmds]⟩
    | READBACK =>
      simp only [List.cons_append, mergeScan, hs]
      split_ifs with h1
      · exact ⟨⟨s :: l1, by simp, by simp⟩, rfl⟩
      · obtain ⟨⟨l1x, hrest, hlen⟩, hcmds⟩ := ih touched
        exact ⟨⟨s :: l1x, by simp [hrest], by simp [hlen]⟩, by simp [hcmds]⟩
    | RENDER_SKIP =>
      simp only [List.cons_append, mergeScan, hs]
      obtain ⟨⟨l1x, hrest, hlen⟩, hcmds⟩ := ih touched
      exact ⟨⟨s :: l1x, by simp [hrest], by simp [hlen]⟩, by simp [hcmds]⟩
    | READBACK_IMAGE =>
      simp only [List.cons_append, mergeScan, hs]
      obtain ⟨⟨l1x, hrest, hlen⟩, hcmds⟩ := ih touched
      exact ⟨⟨s :: l1x, by simp [hrest], by simp [hlen]⟩, by simp [hcmds]⟩

/-- Witness for C2: with a render step to framebuffer 1 before a copy
reading framebuffer 1 and a further render step to framebuffer 1 beyond
it, the scan's tail keeps the copy and the trailing render untouched and
absorbs only the commands of the prefix. -/
theorem mergeScan_barrier_witness :
    stopsMergeScan (some 1) copyFrom1 ∧
    ((∃ l1x, (mergeScan (some 1) [] ([render1a] ++ copyFrom1 :: [render1b])).rest =
        l1x ++ copyFrom1 :: [render1b] ∧ l1x.length = [render1a].length) ∧
     (mergeScan (some 1) [] ([render1a] ++ copyFrom1 :: [render1b])).cmds =
       (mergeScan (some 1) [] [render1a]).cmds) :=
  ⟨by decide,
   mergeScan_barrier (some 1) [] [render1a] copyFrom1 [render1b] (by decide)⟩

/-- Counterexample to claim C2 as stated: the merge pass does absorb a
render step to framebuffer 1 across an intervening step (here a copy
between framebuffers 4 and 5) whose dependency set contains
framebuffer 1 — the scan only consults the dependency sets of render
steps, so it keeps going and marks the later render step skip. -/
theorem mergeScan_dep_copy_crossed :
    some 1 ∈ copyDeps1.dependencies ∧
    copyDeps1.copy_src ≠ some 1 ∧ copyDeps1.copy_dst ≠ some 1 ∧
    applyRenderPassMerge [render1a, copyDeps1, render1b] =
      [absorbStep render1a render1b.preTransitions render1b.commands,
        copyDeps1, markSkip render1b] := by
  refine ⟨by decide, by decide, by decide, ?_⟩
  unfold applyRenderPassMerge
  rw [mergeLoop_merge _ _ _ (by exact ⟨by decide, by decide⟩)]
  rw [show mergeScan render1a.framebuffer [] [copyDeps1, render1b] =
    ⟨render1b.commands, render1b.preTransitions,
      [copyDeps1, markSkip render1b]⟩ from by decide]
  rw [mergeLoop_pass _ _ _ (by decide), mergeLoop_pass _ _ _ (by decide),
    mergeLoop_nil]

theorem clearScanFold_append (cj : VKRStep) (mid : List VKRStep)
    (r : List VKRStep)
    (hmid : ∀ s ∈ mid,
      ¬(s.stepType = VKRStepType.RENDER ∧ s.framebuffer = cj.framebuffer) ∧
      ¬(s.stepType = VKRStepType.COPY ∧ s.copy_src = cj.framebuffer)) :
    clearScanFold cj (mid ++ r) = (clearScanFold cj r).map (mid ++ ·) := by
  induction mid with
  | nil => simp
  | cons s mid ih =>
    have hs := hmid s (by simp)
    simp only [List.cons_append, clearScanFold, List.append_eq]
    rw [if_neg hs.1, if_neg hs.2, ih (fun t ht => hmid t (by simp [ht]))]
    cases clearScanFold cj r <;> simp

/-- Claim C6: a render step with zero draws, zero cross-step reads and
all three load actions clear is folded by the optimizer into the next
render step targeting the same framebuffer — each of that step's
non-clear load actions is upgraded to clear with the dead step's clear
value — and the dead step is marked skip; the fold is aborted, leaving
both steps intact, when a copy step reading from that framebuffer
intervenes before the next render step to it.  `mid` is the intervening
window: no render step to the framebuffer and no copy reading it. -/
theorem clearFold_spec (cj : VKRStep) (mid : List VKRStep) (ck : VKRStep)
    (post : List VKRStep) (hcj : isEmptyClear cj)
    (hmid : ∀ s ∈ mid,
      ¬(s.stepType = VKRStepType.RENDER ∧ s.framebuffer = cj.framebuffer) ∧
      ¬(s.stepType = VKRStepType.COPY ∧ s.copy_src = cj.framebuffer)) :
    (ck.stepType = VKRStepType.RENDER → ck.framebuffer = cj.framebuffer →
      clearScanFold cj (mid ++ ck :: post) =
        some (mid ++ upgradeClear cj ck :: post) ∧
      clearMergePass (cj :: mid ++ ck :: post) =
        markSkip cj :: clearMergePass (mid ++ upgradeClear cj ck :: post)) ∧
    (ck.stepType = VKRStepType.COPY → ck.copy_src = cj.framebuffer →
      clearScanFold cj (mid ++ ck :: post) = none ∧
      clearMergePass (cj :: mid ++ ck :: post) =
        cj :: clearMergePass (mid ++ ck :: post)) := by
  constructor
  · intro hR hF
    have hsc : clearScanFold cj (ck :: post) =
        some (upgradeClear cj ck :: post) := by
      simp [clearScanFold, hR, hF]
    have hall : clearScanFold cj (mid ++ ck :: post) =
        some (mid ++ upgradeClear cj ck :: post) := by
      rw [clearScanFold_append cj mid _ hmid, hsc]
      rfl
    exact ⟨hall, clearMergePass_fold cj _ _ hcj hall⟩
  · intro hC hF
    have hsc : clearScanFold cj (ck :: post) = none := by
      simp [clearScanFold, hC, hF]
    have hall : clearScanFold cj (mid ++ ck :: post) = none := by
      rw [clearScanFold_append cj mid _ hmid, hsc]
      rfl
    exact ⟨hall, clearMergePass_nofold cj _ hcj hall⟩

/-- Witness for C6: a dead clear to framebuffer 1 folds into a later
keep/keep/keep render step to framebuffer 1 across an unrelated copy, and
the same fold is aborted when the intervening block ends with a copy
reading framebuffer 1 instead. -/
theorem clearFold_spec_witness :
    clearScanFold clearStep0 ([copyOther] ++ keepStep1 :: []) =
      some ([copyOther] ++ upgradeClear clearStep0 keepStep1 :: []) ∧
    clearScanFold clearStep0 ([copyOther] ++ copyFrom1 :: []) = none :=
  ⟨((clearFold_spec clearStep0 [copyOther] keepStep1 [] (by decide)
      (by decide)).1 (by decide) (by decide)).1,
   ((clearFold_spec clearStep0 [copyOther] copyFrom1 [] (by decide)
      (by decide)).2 (by decide) (by decide)).1⟩

theorem flatCmds_nil (g : Option Nat) : flatCmds g [] = [] := rfl

theorem flatCmds_cons (g : Option Nat) (s : VKRStep) (l : List VKRStep) :
    flatCmds g (s :: l) =
      (if s.stepType = VKRStepType.RENDER ∧ s.framebuffer = g then
        s.commands else []) ++ flatCmds g l := by
  simp [flatCmds]

theorem mergeScan_flat (fb : Option Nat) (touched : List (Option Nat))
    (l : List VKRStep) :
    (flatCmds fb l = (mergeScan fb touched l).cmds ++
      flatCmds fb (mergeScan fb touched l).rest) ∧
    (∀ g, g ≠ fb →
      flatCmds g (mergeScan fb touched l).rest = flatCmds g l) := by
  induction l generalizing touched with
  | nil => simp [mergeScan]
  | cons s rest ih =>
    cases hs : s.stepType with
    | RENDER =>
      simp only [mergeScan, hs]
      split_ifs with h1 h2 h3
      · simp
      · simp
      · obtain ⟨ih1, ih2⟩ := ih touched
        constructor
        · rw [flatCmds_cons, flatCmds_cons]
          simp only [markSkip, hs, h3]
          simp [ih1]
        · intro g hg
          rw [flatCmds_cons, flatCmds_cons]
          simp only [markSkip]
          have hng : ¬(s.framebuffer = g) := by rw [h3]; exact fun e => hg e.symm
          simp [hng, ih2 g hg]
      · obtain ⟨ih1, ih2⟩ := ih (tinyInsert touched s.framebuffer)
        constructor
        · rw [flatCmds_cons, flatCmds_cons]
          simp [h3, ih1]
        · intro g hg
          rw [flatCmds_cons, flatCmds_cons]
          simp [ih2 g hg]
    | COPY =>
      simp only [mergeScan, hs]
      split_ifs with h1
      · simp
      · obtain ⟨ih1, ih2⟩ := ih (tinyInsert touched s.copy_dst)
        constructor
        · rw [flatCmds_cons, flatCmds_cons]
          simp [hs, ih1]
        · intro g hg
          rw [flatCmds_cons, flatCmds_cons]
          simp [hs, ih2 g hg]
    | BLIT =>
      simp only [mergeScan, hs]
      split_ifs with h1
      · simp
      · obtain ⟨ih1, ih2⟩ := ih (tinyInsert touched s.blit_dst)
        constructor
        · rw [flatCmds_cons, flatCmds_cons]
          simp [hs, ih1]
        · intro g hg
          rw [flatCmds_cons, flatCmds_cons]
          simp [hs, ih2 g hg]
    | READBACK =>
      simp only [mergeScan, hs]
      split_ifs with h1
      · simp
      · obtain ⟨ih1, ih2⟩ := ih touched
        constructor
        · rw [flatCmds_cons, flatCmds_cons]
          simp [hs, ih1]
        · intro g hg
          rw [flatCmds_cons, flatCmds_cons]
          simp [hs, ih2 g hg]
    | RENDER_SKIP =>
      simp only [mergeScan, hs]
      obtain ⟨ih1, ih2⟩ := ih touched
      constructor
      · rw [flatCmds_cons, flatCmds_cons]
        simp [hs, ih1]
      · intro g hg
        rw [flatCmds_cons, flatCmds_cons]
        simp [hs, ih2 g hg]
    | READBACK_IMAGE =>
      simp only [mergeScan, hs]
      obtain ⟨ih1, ih2⟩ := ih touched
      constructor
      · rw [flatCmds_cons, flatCmds_cons]
        simp [hs, ih1]
      · intro g hg
        rw [flatCmds_cons, flatCmds_cons]
        simp [hs, ih2 g hg]

theorem mergeLoop_flat (counts : Option Nat → Nat) (g : Option Nat) :
    ∀ n l, l.length = n →
      flatCmds g (mergeLoop counts l) = flatCmds g l := by
  intro n
  induction n using Nat.strong_induction_on with
  | _ n ihn =>
    intro l hlen
    match l with
    | [] => rw [mergeLoop_nil]
    | s :: rest =>
      rw [List.length_cons] at hlen
      by_cases hc : s.stepType = VKRStepType.RENDER ∧
          1 < counts s.framebuffer
      · rw [mergeLoop_merge counts s rest hc]
        have hslen : (mergeScan s.framebuffer [] rest).rest.length =
            rest.length := mergeScan_rest_length s.framebuffer [] rest
        have ihrest : flatCmds g
            (mergeLoop counts (mergeScan s.framebuffer [] rest).rest) =
            flatCmds g (mergeScan s.framebuffer [] rest).rest :=
          ihn rest.length (by omega) _ hslen
        obtain ⟨hm1, hm2⟩ := mergeScan_flat s.framebuffer [] rest
        by_cases hg : g = s.framebuffer
        · subst hg
          rw [flatCmds_cons, flatCmds_cons]
          simp only [absorbStep, hc.1, and_self, if_true]
          rw [List.append_assoc, ihrest, ← hm1]
        · rw [flatCmds_cons, flatCmds_cons]
          have hng : ¬(s.framebuffer = g) := fun e => hg e.symm
          simp only [absorbStep]
          simp [hng, ihrest, hm2 g hg]
      · rw [mergeLoop_pass counts s rest hc]
        rw [flatCmds_cons, flatCmds_cons]
        have ihrest : flatCmds g (mergeLoop counts rest) = flatCmds g rest :=
          ihn rest.length (by omega) rest rfl
        rw [ihrest]

/-- Claim C1: the generic merge pass preserves, for every framebuffer,
the sequence (hence the multiset and relative order) of recorded commands
belonging to render steps targeting that framebuffer: merging only
concatenates absorbed steps' command lists, in scan order, onto the
render step the scan started from and marks the absorbed steps skip. -/
theorem applyRenderPassMerge_preserves_commands (steps : List VKRStep)
    (fb : Option Nat) :
    flatCmds fb (applyRenderPassMerge steps) = flatCmds fb steps := by
  unfold applyRenderPassMerge
  exact mergeLoop_flat (countRender steps) fb steps.length steps rfl

theorem stepSafe_fixup (s : VKRStep) : StepSafe (fixupFinalLayout s) := by
  unfold fixupFinalLayout StepSafe
  split
  · intro _ _
    simp
  · next hneg =>
    intro h1 h2
    intro hu
    exact hneg ⟨h1, h2, hu⟩

theorem stepSafe_markSkip (s : VKRStep) : StepSafe (markSkip s) := by
  intro h
  simp [markSkip] at h

theorem stepSafe_absorbCmds (s : VKRStep) (cs : List VkRenderData)
    (h : StepSafe s) : StepSafe (absorbCmds s cs) := by
  intro h1 h2
  exact h h1 h2

theorem stepSafe_absorbStep (s : VKRStep) (pres : List TransitionRequest)
    (cs : List VkRenderData) (h : StepSafe s) :
    StepSafe (absorbStep s pres cs) := by
  intro h1 h2
  exact h h1 h2

theorem upgradeClear_fields (cj s : VKRStep) :
    (upgradeClear cj s).stepType = s.stepType ∧
    (upgradeClear cj s).framebuffer = s.framebuffer ∧
    (upgradeClear cj s).finalColorLayout = s.finalColorLayout := by
  by_cases h1 : s.color = VKRRenderPassAction.CLEAR <;>
    by_cases h2 : s.depth = VKRRenderPassAction.CLEAR <;>
      by_cases h3 : s.stencil = VKRRenderPassAction.CLEAR <;>
        simp [upgradeClear, h1, h2, h3]

theorem stepSafe_upgradeClear (cj s : VKRStep) (h : StepSafe s) :
    StepSafe (upgradeClear cj s) := by
  intro h1 h2
  obtain ⟨e1, e2, e3⟩ := upgradeClear_fields cj s
  rw [e1] at h1
  rw [e2] at h2
  rw [e3]
  exact h h1 h2

theorem clearScanFold_safe (cj : VKRStep) :
    ∀ l l2, clearScanFold cj l = some l2 → (∀ s ∈ l, StepSafe s) →
      ∀ t ∈ l2, StepSafe t := by
  intro l
  induction l with
  | nil => intro l2 hf; simp [clearScanFold] at hf
  | cons s rest ih =>
    intro l2 hf hl t ht
    simp only [clearScanFold] at hf
    split at hf
    · cases hf
      simp only [List.mem_cons] at ht
      rcases ht with rfl | ht
      · exact stepSafe_upgradeClear cj s (hl s (by simp))
      · exact hl t (by simp [ht])
    · split at hf
      · cases hf
      · rcases Option.map_eq_some'.mp hf with ⟨l3, hl3, rfl⟩
        simp only [List.mem_cons] at ht
        rcases ht with rfl | ht
        · exact hl t (by simp)
        · exact ih l3 hl3 (fun u hu => hl u (by simp [hu])) t ht

theorem clearMergePass_safe :
    ∀ n l, l.length = n → (∀ s ∈ l, StepSafe s) →
      ∀ t ∈ clearMergePass l, StepSafe t := by
  intro n
  induction n using Nat.strong_induction_on with
  | _ n ihn =>
    intro l hlen hl t ht
    match l with
    | [] => rw [clearMergePass_nil] at ht; cases ht
    | s :: rest =>
      rw [List.length_cons] at hlen
      by_cases hc : isEmptyClear s
      · cases hf : clearScanFold s rest with
        | some rest2 =>
          rw [clearMergePass_fold s rest rest2 hc hf] at ht
          simp only [List.mem_cons] at ht
          rcases ht with rfl | ht
          · exact stepSafe_markSkip s
          · have hlen2 := clearScanFold_length s rest rest2 hf
            exact ihn rest.length (by omega) rest2 hlen2
              (clearScanFold_safe s rest rest2 hf
                (fun u hu => hl u (by simp [hu]))) t ht
        | none =>
          rw [clearMergePass_nofold s rest hc hf] at ht
          simp only [List.mem_cons] at ht
          rcases ht with rfl | ht
          · exact hl t (by simp)
          · exact ihn rest.length (by omega) rest rfl
              (fun u hu => hl u (by simp [hu])) t ht
      · rw [clearMergePass_other s rest hc] at ht
        simp only [List.mem_cons] at ht
        rcases ht with rfl | ht
        · exact hl t (by simp)
        · exact ihn rest.length (by omega) rest rfl
            (fun u hu => hl u (by simp [hu])) t ht

theorem mergeGroup_safe (l : List VKRStep) (h : ∀ s ∈ l, StepSafe s) :
    ∀ t ∈ mergeGroup l, StepSafe t := by
  cases l with
  | nil => simp [mergeGroup]
  | cons r rs =>
    intro t ht
    simp only [mergeGroup, List.mem_cons] at ht
    rcases ht with rfl | ht
    · exact stepSafe_absorbCmds _ _ (h r (by simp))
    · rcases List.mem_map.mp ht with ⟨u, _, rfl⟩
      exact stepSafe_markSkip u

theorem mgs1Rewrite_safe (l : List VKRStep) (o : Nat)
    (h : ∀ s ∈ l, StepSafe s) : ∀ t ∈ mgs1Rewrite l o, StepSafe t := by
  intro t ht
  have hseg : ∀ u ∈ l.take o, StepSafe u :=
    fun u hu => h u (List.take_subset o l hu)
  simp only [mgs1Rewrite, List.mem_append] at ht
  rcases ht with ((h1 | h2) | h3) | h4
  · exact hseg t (List.mem_of_mem_filter h1)
  · exact mergeGroup_safe _ (fun u hu => hseg u (List.mem_of_mem_filter hu))
      t h2
  · exact hseg t (List.drop_subset _ _ h3)
  · exact h t (List.drop_subset _ _ h4)

theorem applyMGSHackLoop1_safe :
    ∀ l, (∀ s ∈ l, StepSafe s) → ∀ t ∈ applyMGSHackLoop1 l, StepSafe t := by
  intro l
  induction l with
  | nil => simp [applyMGSHackLoop1]
  | cons s rest ih =>
    intro hl t ht
    simp only [applyMGSHackLoop1] at ht
    split at ht
    · split at ht
      · exact mgs1Rewrite_safe _ _ hl t ht
      · simp only [List.mem_cons] at ht
        rcases ht with rfl | ht
        · exact hl t (by simp)
        · exact ih (fun u hu => hl u (by simp [hu])) t ht
    · simp only [List.mem_cons] at ht
      rcases ht with rfl | ht
      · exact hl t (by simp)
      · exact ih (fun u hu => hl u (by simp [hu])) t ht

theorem depalMark_safe (last : Nat) :
    ∀ l o, (∀ s ∈ l, StepSafe s) → ∀ t ∈ depalMark o last l, StepSafe t := by
  intro l
  induction l with
  | nil => intro o _ t ht; simp [depalMark] at ht
  | cons s rest ih =>
    intro o hl t ht
    simp only [depalMark, List.mem_cons] at ht
    rcases ht with rfl | ht
    · split
      · exact stepSafe_markSkip s
      · exact hl s (by simp)
    · exact ih (o + 1) (fun u hu => hl u (by simp [hu])) t ht

theorem depalRewrite_safe (l : List VKRStep) (last : Nat)
    (h : ∀ s ∈ l, StepSafe s) : ∀ t ∈ depalRewrite l last, StepSafe t := by
  match l with
  | [] => simp [depalRewrite]
  | [s0] => simpa [depalRewrite] using h
  | s0 :: s1 :: rest =>
    intro t ht
    simp only [depalRewrite, List.mem_cons] at ht
    rcases ht with rfl | rfl | ht
    · exact stepSafe_absorbCmds _ _ (h s0 (by simp))
    · exact stepSafe_absorbCmds _ _ (h s1 (by simp))
    · exact depalMark_safe last rest 2
        (fun u hu => h u (by simp [hu])) t ht

theorem applyMGSHackLoop2_safe :
    ∀ l, (∀ s ∈ l, StepSafe s) → ∀ t ∈ applyMGSHackLoop2 l, StepSafe t := by
  intro l
  induction l with
  | nil => simp [applyMGSHackLoop2]
  | cons s rest ih =>
    intro hl t ht
    simp only [applyMGSHackLoop2] at ht
    split at ht
    · split at ht
      · exact depalRewrite_safe _ _ hl t ht
      · simp only [List.mem_cons] at ht
        rcases ht with rfl | ht
        · exact hl t (by simp)
        · exact ih (fun u hu => hl u (by simp [hu])) t ht
    · simp only [List.mem_cons] at ht
      rcases ht with rfl | ht
      · exact hl t (by simp)
      · exact ih (fun u hu => hl u (by simp [hu])) t ht

theorem applyMGSHack_safe (l : List VKRStep) (h : ∀ s ∈ l, StepSafe s) :
    ∀ t ∈ applyMGSHack l, StepSafe t :=
  applyMGSHackLoop2_safe _ (applyMGSHackLoop1_safe l h)

theorem sonicRewrite_safe (fbA : Option Nat) (l : List VKRStep) (o : Nat)
    (h : ∀ s ∈ l, StepSafe s) : ∀ t ∈ sonicRewrite fbA l o, StepSafe t := by
  intro t ht
  have hseg : ∀ u ∈ l.take o, StepSafe u :=
    fun u hu => h u (List.take_subset o l hu)
  simp only [sonicRewrite, List.mem_append] at ht
  rcases ht with (h1 | h2) | h3
  · exact mergeGroup_safe _ (fun u hu => hseg u (List.mem_of_mem_filter hu))
      t h1
  · exact mergeGroup_safe _ (fun u hu => hseg u (List.mem_of_mem_filter hu))
      t h2
  · exact h t (List.drop_subset _ _ h3)

theorem applySonicHack_safe :
    ∀ l, (∀ s ∈ l, StepSafe s) → ∀ t ∈ applySonicHack l, StepSafe t := by
  intro l
  induction l with
  | nil => simp [applySonicHack]
  | cons s rest ih =>
    intro hl t ht
    simp only [applySonicHack] at ht
    split at ht
    · split at ht
      · exact sonicRewrite_safe _ _ _ hl t ht
      · simp only [List.mem_cons] at ht
        rcases ht with rfl | ht
        · exact hl t (by simp)
        · exact ih (fun u hu => hl u (by simp [hu])) t ht
    · simp only [List.mem_cons] at ht
      rcases ht with rfl | ht
      · exact hl t (by simp)
      · exact ih (fun u hu => hl u (by simp [hu])) t ht

theorem mergeScan_rest_safe (fb : Option Nat) :
    ∀ l touched, (∀ s ∈ l, StepSafe s) →
      ∀ t ∈ (mergeScan fb touched l).rest, StepSafe t := by
  intro l
  induction l with
  | nil => intro touched _ t ht; simp [mergeScan] at ht
  | cons s rest ih =>
    intro touched hl t ht
    have hrest : ∀ u ∈ rest, StepSafe u := fun u hu => hl u (by simp [hu])
    cases hs : s.stepType with
    | RENDER =>
      simp only [mergeScan, hs] at ht
      split_ifs at ht with h1 h2 h3
      · exact hl t ht
      · exact hl t ht
      · simp only [List.mem_cons] at ht
        rcases ht with rfl | ht
        · exact stepSafe_markSkip s
        · exact ih touched hrest t ht
      · simp only [List.mem_cons] at ht
        rcases ht with rfl | ht
        · exact hl t (by simp)
        · exact ih _ hrest t ht
    | COPY =>
      simp only [mergeScan, hs] at ht
      split_ifs at ht with h1
      · exact hl t ht
      · simp only [List.mem_cons] at ht
        rcases ht with rfl | ht
        · exact hl t (by simp)
        · exact ih _ hrest t ht
    | BLIT =>
      simp only [mergeScan, hs] at ht
      split_ifs at ht with h1
      · exact hl t ht
      · simp only [List.mem_cons] at ht
        rcases ht with rfl | ht
        · exact hl t (by simp)
        · exact ih _ hrest t ht
    | READBACK =>
      simp only [mergeScan, hs] at ht
      split_ifs at ht with h1
      · exact hl t ht
      · simp only [List.mem_cons] at ht
        rcases ht with rfl | ht
        · exact hl t (by simp)
        · exact ih _ hrest t ht
    | RENDER_SKIP =>
      simp only [mergeScan, hs, List.mem_cons] at ht
      rcases ht with rfl | ht
      · exact hl t (by simp)
      · exact ih _ hrest t ht
    | READBACK_IMAGE =>
      simp only [mergeScan, hs, List.mem_cons] at ht
      rcases ht with rfl | ht
      · exact hl t (by simp)
      · exact ih _ hrest t ht

theorem mergeLoop_safe (counts : Option Nat → Nat) :
    ∀ n l, l.length = n → (∀ s ∈ l, StepSafe s) →
      ∀ t ∈ mergeLoop counts l, StepSafe t := by
  intro n
  induction n using Nat.strong_induction_on with
  | _ n ihn =>
    intro l hlen hl t ht
    match l with
    | [] => rw [mergeLoop_nil] at ht; cases ht
    | s :: rest =>
      rw [List.length_cons] at hlen
      have hrest : ∀ u ∈ rest, StepSafe u := fun u hu => hl u (by simp [hu])
      by_cases hc : s.stepType = VKRStepType.RENDER ∧
          1 < counts s.framebuffer
      · rw [mergeLoop_merge counts s rest hc] at ht
        simp only [List.mem_cons] at ht
        rcases ht with rfl | ht
        · exact stepSafe_absorbStep _ _ _ (hl s (by simp))
        · exact ihn rest.length (by omega) _
            (mergeScan_rest_length s.framebuffer [] rest)
            (mergeScan_rest_safe s.framebuffer rest [] hrest) t ht
      · rw [mergeLoop_pass counts s rest hc] at ht
        simp only [List.mem_cons] at ht
        rcases ht with rfl | ht
        · exact hl t (by simp)
        · exact ihn rest.length (by omega) rest rfl hrest t ht

theorem applyRenderPassMerge_safe (l : List VKRStep)
    (h : ∀ s ∈ l, StepSafe s) : ∀ t ∈ applyRenderPassMerge l, StepSafe t :=
  mergeLoop_safe (countRender l) l.length l rfl h

/-- Claim C10: after the optimizer pipeline of `RunSteps` — which starts
by replacing an `UNDEFINED` final color layout with
`COLOR_ATTACHMENT_OPTIMAL` in every render step targeting an offscreen
framebuffer — every render step targeting an offscreen framebuffer has a
defined final color layout, whatever hacks are enabled, so the assertion
of `PerformBindFramebufferAsRenderTarget` holds at execution time. -/
theorem runStepsOptimize_assert_holds (hacks : Nat) (steps : List VKRStep) :
    ∀ s ∈ runStepsOptimize hacks steps,
      s.stepType = VKRStepType.RENDER → s.framebuffer ≠ none →
        s.finalColorLayout ≠ VkImageLayout.UNDEFINED := by
  have h1 : ∀ s ∈ steps.map fixupFinalLayout, StepSafe s := by
    intro s hs
    rcases List.mem_map.mp hs with ⟨u, _, rfl⟩
    exact stepSafe_fixup u
  have h2 := clearMergePass_safe (steps.map fixupFinalLayout).length _ rfl h1
  have h3 : ∀ s ∈ applyHackMGS hacks
      (clearMergePass (steps.map fixupFinalLayout)), StepSafe s := by
    unfold applyHackMGS
    split
    · exact applyMGSHack_safe _ h2
    · exact h2
  have h4 : ∀ s ∈ applyHackSonic hacks (applyHackMGS hacks
      (clearMergePass (steps.map fixupFinalLayout))), StepSafe s := by
    unfold applyHackSonic
    split
    · exact applySonicHack_safe _ h3
    · exact h3
  have h5 : ∀ s ∈ runStepsOptimize hacks steps, StepSafe s := by
    unfold runStepsOptimize applyHackMerge
    split
    · exact applyRenderPassMerge_safe _ h4
    · exact h4
  exact h5

/-- Witness for C10: a render step recorded with an undefined final color
layout comes out of the optimizer with `COLOR_ATTACHMENT_OPTIMAL`. -/
theorem runStepsOptimize_assert_holds_witness :
    fixupFinalLayout undefStep ∈ runStepsOptimize 0 [undefStep] ∧
    (fixupFinalLayout undefStep).finalColorLayout ≠
      VkImageLayout.UNDEFINED :=
  ⟨by
    unfold runStepsOptimize applyHackMerge applyHackSonic applyHackMGS
    rw [if_neg (by decide), if_neg (by decide), if_neg (by decide)]
    rw [show [undefStep].map fixupFinalLayout = [fixupFinalLayout undefStep]
      from rfl]
    rw [clearMergePass_other _ _ (by decide), clearMergePass_nil]
    simp,
   runStepsOptimize_assert_holds 0 [undefStep] (fixupFinalLayout undefStep)
    (by
      unfold runStepsOptimize applyHackMerge applyHackSonic applyHackMGS
      rw [if_neg (by decide), if_neg (by decide), if_neg (by decide)]
      rw [show [undefStep].map fixupFinalLayout =
        [fixupFinalLayout undefStep] from rfl]
      rw [clearMergePass_other _ _ (by decide), clearMergePass_nil]
      simp)
    (by decide) (by decide)⟩

end VulkanQR
